import Mathlib

/-!
Shallow embedding of the twilight-self-backend verification server.

The embedding follows the source files:
  * `server.mjs` / `src/unnamed/part_003` — the two Express server variants
    (`POST /api/verify`, `POST /api/verify/self`, `POST /api/verify/zkpass`,
    and the ADR-036 `verifySignature` utility, which lives only in `server.mjs`);
  * `database.mjs` — the persistence helpers `saveVerification`,
    `saveSelfCheck`, `checkAttestationExists`.

External capabilities (the Self and ZKPassport verifier SDKs, the postgres
store, `Buffer` hex decoding, `verifyADR36Amino`) are modelled as inputs:
the verifier outcome is an argument of each handler, storage failures are a
boolean oracle, and the hex-to-utf8 decode is a function argument.  Optional
JSON string fields are `Option String` (`none` = absent / null / undefined),
and JavaScript truthiness / loose equality are modelled explicitly for the
value shapes that actually flow through these fields.
-/

namespace Twilight

/-- JavaScript truthiness of an optional string field: absent (undefined or
null) and the empty string are falsy, every other string is truthy. -/
def truthyStr : Option String → Bool
  | none => false
  | some s => s ≠ ""

/-- JavaScript truthiness of an optional array field: any present array is
truthy, even the empty array; only an absent field is falsy. -/
def truthyArr {α : Type} : Option (List α) → Bool
  | none => false
  | some _ => true

/-- JavaScript loose equality `==` restricted to string-or-nullish values:
`null == undefined` holds (both are `none` here), strings compare by
content, and a string is never loosely equal to a nullish value. -/
def looseEq : Option String → Option String → Bool
  | none, none => true
  | some a, some b => a == b
  | _, _ => false

/-- JavaScript `a || b` on string-or-nullish values: `a` when truthy,
otherwise `b` (models `clientUID || serverUID` in the zkpass handlers). -/
def jsOrStr (a b : Option String) : Option String :=
  if truthyStr a then a else b

/-- A row of the `zkpass` table: `saveVerification` in `database.mjs`
inserts `(address, identifier, provider)`. -/
structure ZkpassRow where
  address : Option String
  identifier : Option String
  provider : Option String
deriving DecidableEq

/-- A row of the `selfcheck` table: `saveSelfCheck` in `database.mjs`
inserts `(attestationId, proof)`. -/
structure SelfcheckRow where
  attestationId : Option String
  proof : Option String
deriving DecidableEq

/-- `saveVerification(uniqueIdentifier, address, provider)` from
`database.mjs`: builds the inserted `zkpass` row (note the argument
order versus the column order). -/
def saveVerification (uniqueIdentifier address provider : Option String) : ZkpassRow :=
  { address := address, identifier := uniqueIdentifier, provider := provider }

/-- `saveSelfCheck(attestationId, proof)` from `database.mjs`: builds the
inserted `selfcheck` row. -/
def saveSelfCheck (attestationId proof : Option String) : SelfcheckRow :=
  { attestationId := attestationId, proof := proof }

/-- `checkAttestationExists(attestationId)` from `database.mjs`: SQL
`WHERE attestationId = $1` equality, which never matches a NULL on either
side. -/
def checkAttestationExists (db : List SelfcheckRow) (attestationId : Option String) : Bool :=
  db.any fun r =>
    match r.attestationId, attestationId with
    | some a, some b => a == b
    | _, _ => false

/-! ## Policy Evaluator (inline in the `/api/verify` handlers) -/

/-- Milliseconds per day, for date arithmetic on JS epoch-millisecond
timestamps. -/
def msPerDay : Int := 86400000

/-- The expiry policy check from the `/api/verify` handlers:
`expiryDate > oneYearFromNow`, on epoch-millisecond timestamps.  The
handler computes `oneYearFromNow` from the wall clock via
`setFullYear(getFullYear() + 1)`; the embedding takes that timestamp as an
input (it lies between 365 and 366 days after now). -/
def expiryOk (expiryDateMs oneYearFromNowMs : Int) : Bool :=
  oneYearFromNowMs < expiryDateMs

/-- The hardcoded issuing-country allow-list of the `/api/verify`
handlers. -/
def allowedCountries : List String := ["CHN", "IDN", "MYS", "USA"]

/-- The country policy check from the `/api/verify` handlers:
`allowList.includes(issuingCountry)`. -/
def countryOk (issuingCountry : String) (allowList : List String) : Bool :=
  allowList.contains issuingCountry

/-! ## `POST /api/verify` — provider A orchestrator (part_003 variant) -/

/-- Request body of `POST /api/verify`: `attestationId`, `proof` and
`userContextData` are modelled as optional strings, `publicSignals` as an
optional array. -/
structure VerifyRequest where
  attestationId : Option String
  proof : Option String
  publicSignals : Option (List String)
  userContextData : Option String
deriving DecidableEq

/-- Outcome of the external Self verifier capability
(`selfBackendVerifier.verify`): validity flag, disclosed attributes
(expiry timestamp, issuing state) and user data (identifier, hex-encoded
user-defined data). -/
structure SelfOutcome where
  isValid : Bool
  expiryDateMs : Int
  issuingState : String
  userIdentifier : Option String
  userDefinedData : String
deriving DecidableEq

/-- Environment of one `/api/verify` call: the wall-clock-derived
`oneYearFromNow` timestamp, the `Buffer.from(·, "hex").toString("utf8")`
decode capability, and failure oracles for the two best-effort database
writes. -/
structure SelfEnv where
  oneYearFromNowMs : Int
  hexDecode : String → String
  selfCheckFails : Bool
  saveFails : Bool

/-- HTTP outcome of `/api/verify`: 400 missing-field rejection, 200
success envelope (`{status:"success", result:true, ...}`), or 400 failure
envelope (`{status:"error", result:false, ...}`) when the verifier says
invalid. -/
inductive SelfReply
  | badRequest
  | success
  | verifyFailed
deriving DecidableEq

/-- Observable result of one `/api/verify` call: the HTTP reply, whether
the external verifier was invoked, whether the best-effort persistence
block was entered, the two logged policy-check values, and the rows
written to each table. -/
structure SelfResult where
  reply : SelfReply
  verifierCalled : Bool
  persistenceAttempted : Bool
  loggedExpiryValid : Option Bool
  loggedCountryAllowed : Option Bool
  selfcheckWrites : List SelfcheckRow
  zkpassWrites : List ZkpassRow
deriving DecidableEq

/-- The request-shape validation of `/api/verify` (identical in all server
variants): `!proof || !publicSignals || !attestationId || !userContextData`
under JS truthiness. -/
def verifyValidationFails (req : VerifyRequest) : Bool :=
  !truthyStr req.proof || !truthyArr req.publicSignals ||
    !truthyStr req.attestationId || !truthyStr req.userContextData

/-- The address validation `cosmosAddress.startsWith("twilight")` of the
part_003 `/api/verify` handler, computed on the character list so it is
executable by kernel reduction. -/
def startsWithTwilight (s : String) : Bool :=
  s.toList.take 8 == "twilight".toList

/-- The `zkpass`-table rows produced by the best-effort block of the
part_003 `/api/verify` handler: the block first runs `saveSelfCheck`
(aborting on failure), then hex-decodes the cosmos address from
`userDefinedData`, throws inside the block unless it starts with
`"twilight"`, and finally runs `saveVerification(identifier, address,
"self")`.  Any failure aborts the rest of the block only. -/
def verifyBestEffortWrites (req : VerifyRequest) (outcome : SelfOutcome)
    (env : SelfEnv) : List ZkpassRow :=
  if env.selfCheckFails then []
  else
    let cosmosAddress := env.hexDecode outcome.userDefinedData
    if !(startsWithTwilight cosmosAddress) then []
    else if env.saveFails then []
    else [saveVerification outcome.userIdentifier (some cosmosAddress) (some "self")]

/-- The part_003 `POST /api/verify` handler: validate the request shape,
invoke the external verifier, branch on validity; on a valid outcome
compute and log the two policy checks, run the best-effort persistence
block, and respond success regardless of the policy values and of any
failure inside the block; on an invalid outcome respond the 400 failure
envelope with no writes. -/
def verifyHandler (req : VerifyRequest) (outcome : SelfOutcome) (env : SelfEnv) : SelfResult :=
  if verifyValidationFails req then
    { reply := .badRequest, verifierCalled := false, persistenceAttempted := false,
      loggedExpiryValid := none, loggedCountryAllowed := none,
      selfcheckWrites := [], zkpassWrites := [] }
  else if outcome.isValid then
    { reply := .success, verifierCalled := true, persistenceAttempted := true,
      loggedExpiryValid := some (expiryOk outcome.expiryDateMs env.oneYearFromNowMs),
      loggedCountryAllowed := some (countryOk outcome.issuingState allowedCountries),
      selfcheckWrites :=
        if env.selfCheckFails then []
        else [saveSelfCheck outcome.userIdentifier req.proof],
      zkpassWrites := verifyBestEffortWrites req outcome env }
  else
    { reply := .verifyFailed, verifierCalled := true, persistenceAttempted := false,
      loggedExpiryValid := none, loggedCountryAllowed := none,
      selfcheckWrites := [], zkpassWrites := [] }

/-! ## `POST /api/verify/self` — delegated binding -/

/-- Request body of `POST /api/verify/self`: `{cosmosAddress, uuid}`. -/
structure DelegatedRequest where
  cosmosAddress : Option String
  uuid : Option String
deriving DecidableEq

/-- HTTP outcome of `/api/verify/self`: 400 missing-field rejection, 404
when no audited submission exists for the identifier, 200 success with the
saved record, or 500 when the database write throws (there is no inner
try/catch on this path). -/
inductive DelegatedReply
  | badRequest
  | notFound
  | success (record : ZkpassRow)
  | internalError
deriving DecidableEq

/-- The part_003 `POST /api/verify/self` handler: validate both fields,
probe `checkAttestationExists(uuid)` against the `selfcheck` table, 404
with no write when absent, otherwise `saveVerification(uuid,
cosmosAddress, "self")` and a 200 success echoing the saved row.  A save
failure escapes to the outer catch (500). -/
def selfEndpointHandler (req : DelegatedRequest) (selfcheckDb : List SelfcheckRow)
    (dbFails : Bool) : DelegatedReply × List ZkpassRow :=
  if !truthyStr req.cosmosAddress || !truthyStr req.uuid then (.badRequest, [])
  else if !(checkAttestationExists selfcheckDb req.uuid) then (.notFound, [])
  else if dbFails then (.internalError, [])
  else
    let row := saveVerification req.uuid req.cosmosAddress (some "self")
    (.success row, [row])

/-- The `server.mjs` variant of `POST /api/verify/self`: identical to the
part_003 handler except that its 404 response body references the
undeclared identifier `attestationId` (the handler destructures only
`cosmosAddress` and `uuid`), so the not-found branch raises a
ReferenceError that the outer catch converts into an HTTP 500. -/
def serverMjsSelfHandler (req : DelegatedRequest) (selfcheckDb : List SelfcheckRow)
    (dbFails : Bool) : DelegatedReply × List ZkpassRow :=
  if !truthyStr req.cosmosAddress || !truthyStr req.uuid then (.badRequest, [])
  else if !(checkAttestationExists selfcheckDb req.uuid) then (.internalError, [])
  else if dbFails then (.internalError, [])
  else
    let row := saveVerification req.uuid req.cosmosAddress (some "self")
    (.success row, [row])

/-! ## `POST /api/verify/zkpass` — provider B orchestrator -/

/-- Request body of `POST /api/verify/zkpass`: `proofs`, `queryResult` (or
its legacy alias `result`), `scope`, and the optional `uniqueIdentifier`
and `cosmosAddress`. -/
structure ZkpassRequest where
  proofs : Option String
  queryResult : Option String
  result : Option String
  scope : Option String
  uniqueIdentifier : Option String
  cosmosAddress : Option String
deriving DecidableEq

/-- Outcome of the external ZKPassport verifier capability (`zk.verify`):
`{verified, uniqueIdentifier, queryResultErrors}`. -/
structure ZkpassOutcome where
  verified : Bool
  uniqueIdentifier : Option String
  queryResultErrors : Option String
deriving DecidableEq

/-- The response envelope of `/api/verify/zkpass` (part_003 variant):
`{status, verified, clientUID, serverUID, match, queryResultErrors,
address}` (`matched` models the `match` field, which is null when no
truthy client identifier was sent). -/
structure ZkpassEnvelope where
  status : String
  verified : Bool
  clientUID : Option String
  serverUID : Option String
  matched : Option Bool
  queryResultErrors : Option String
  address : Option String
deriving DecidableEq

/-- HTTP outcome of `/api/verify/zkpass`: 400 missing-field rejection, 200
with the envelope, or 500 from the outer catch. -/
inductive ZkpassReply
  | badRequest
  | envelope (e : ZkpassEnvelope)
  | internalError
deriving DecidableEq

/-- Observable result of one `/api/verify/zkpass` call: the HTTP reply and
the rows written to the `zkpass` table. -/
structure ZkpassResult where
  reply : ZkpassReply
  writes : List ZkpassRow
deriving DecidableEq

/-- The request-shape validation of `/api/verify/zkpass`:
`qr = queryResult ?? result` (nullish coalescing keeps a present empty
string), then `!proofs || !qr || !scope` under JS truthiness. -/
def zkpassValidationFails (req : ZkpassRequest) : Bool :=
  !truthyStr req.proofs || !truthyStr (req.queryResult.or req.result) ||
    !truthyStr req.scope

/-- The persistence gate of both zkpass handlers, exactly as written in
the source: `serverUID == clientUID && verified == true` (JS loose
equality). -/
def zkpassGate (serverUID clientUID : Option String) (verified : Bool) : Bool :=
  looseEq serverUID clientUID && verified

/-- Modelled from the spec (section 4.2 Identifier Reconciler), for
comparison with `zkpassGate`: `Allow` iff `verifiedFlag == true` and
(`clientClaimedId == null` or `clientClaimedId == serverDerivedId`). -/
def specReconcilerAllow (clientClaimedId serverDerivedId : Option String)
    (verifiedFlag : Bool) : Bool :=
  verifiedFlag && (clientClaimedId.isNone || clientClaimedId == serverDerivedId)

/-- The `zkpass`-table rows produced by the part_003 zkpass handler: when
the gate passes, `saveVerification(clientUID || serverUID, cosmosAddress
?? null, "zkpass")`, its failure swallowed by the inner try/catch. -/
def zkpassWritesFn (req : ZkpassRequest) (outcome : ZkpassOutcome)
    (dbFails : Bool) : List ZkpassRow :=
  if zkpassGate outcome.uniqueIdentifier req.uniqueIdentifier outcome.verified then
    if dbFails then []
    else [saveVerification (jsOrStr req.uniqueIdentifier outcome.uniqueIdentifier)
      req.cosmosAddress (some "zkpass")]
  else []

/-- The response envelope built by the part_003 zkpass handler:
`status: verified ? "success" : "error"`, the two identifiers echoed,
`match: clientUID ? clientUID === serverUID : null`, the verifier errors,
and `address: cosmosAddress ?? null`. -/
def zkpassEnvelopeOf (req : ZkpassRequest) (outcome : ZkpassOutcome) : ZkpassEnvelope :=
  { status := if outcome.verified then "success" else "error",
    verified := outcome.verified,
    clientUID := req.uniqueIdentifier,
    serverUID := outcome.uniqueIdentifier,
    matched :=
      if truthyStr req.uniqueIdentifier then
        some (req.uniqueIdentifier == outcome.uniqueIdentifier)
      else none,
    queryResultErrors := outcome.queryResultErrors,
    address := req.cosmosAddress }

/-- The part_003 `POST /api/verify/zkpass` handler: validate the request
shape, invoke the external verifier, best-effort-save behind the gate, and
always respond with the envelope. -/
def zkpassHandler (req : ZkpassRequest) (outcome : ZkpassOutcome)
    (dbFails : Bool) : ZkpassResult :=
  if zkpassValidationFails req then { reply := .badRequest, writes := [] }
  else
    { reply := .envelope (zkpassEnvelopeOf req outcome),
      writes := zkpassWritesFn req outcome dbFails }

/-- The `zkpass`-table rows produced by the `server.mjs` zkpass handler:
same gate, but `saveVerification` is called with only two arguments
(`clientUID || serverUID`, `cosmosAddress ?? null`), so the `provider`
parameter is undefined. -/
def serverMjsZkpassWritesFn (req : ZkpassRequest) (outcome : ZkpassOutcome)
    (dbFails : Bool) : List ZkpassRow :=
  if zkpassGate outcome.uniqueIdentifier req.uniqueIdentifier outcome.verified then
    if dbFails then []
    else [saveVerification (jsOrStr req.uniqueIdentifier outcome.uniqueIdentifier)
      req.cosmosAddress none]
  else []

/-- The `server.mjs` variant of `POST /api/verify/zkpass`: identical
control flow up to the response, but the response object evaluates
`address ?? null` where `address` is an undeclared identifier (the request
field is named `cosmosAddress`), so building the response raises a
ReferenceError and the outer catch returns HTTP 500
`{error:"verification_failed"}` — after the gated save already ran. -/
def serverMjsZkpassHandler (req : ZkpassRequest) (outcome : ZkpassOutcome)
    (dbFails : Bool) : ZkpassResult :=
  if zkpassValidationFails req then { reply := .badRequest, writes := [] }
  else
    { reply := .internalError,
      writes := serverMjsZkpassWritesFn req outcome dbFails }

/-! ## `verifySignature` — ADR-036 signature utility (`server.mjs` only) -/

/-- The return shape of `verifySignature`: `{ok: boolean, error?: string}`. -/
structure VerifyResult where
  ok : Bool
  error : Option String
deriving DecidableEq

/-- A character matched by the base64 character class `[A-Za-z0-9+/]`. -/
def isB64Char (c : Char) : Bool :=
  ('A' ≤ c && c ≤ 'Z') || ('a' ≤ c && c ≤ 'z') ||
    ('0' ≤ c && c ≤ '9') || c == '+' || c == '/'

/-- Number of trailing `=` padding characters of a candidate base64
string. -/
def b64PadCount (s : String) : Nat :=
  (s.toList.reverse.takeWhile (fun c => c == '=')).length

/-- The regex `^[A-Za-z0-9+/]+={0,2}$` of `assertBase64`: a nonempty run
of base64 characters followed by at most two `=` padding characters. -/
def matchesB64Shape (s : String) : Bool :=
  let cs := s.toList
  let pad := b64PadCount s
  pad ≤ 2 && cs.length > pad && (cs.take (cs.length - pad)).all isB64Char

/-- `assertBase64` from `server.mjs` as a predicate: the input is a string
(always true in this embedding), its length is a multiple of 4, and it
matches the base64 regex; the source throws when this is false. -/
def assertBase64 (b64 : String) : Bool :=
  b64.length % 4 == 0 && matchesB64Shape b64

/-- Decoded byte length of a string accepted by `assertBase64`:
`Buffer.from(b64, "base64").length = len/4*3 - padCount`. -/
def b64DecodedLen (s : String) : Nat :=
  s.length / 4 * 3 - b64PadCount s

/-- `toAscii` from `@cosmjs/encoding` accepts exactly the printable ASCII
range `0x20`–`0x7e` and throws otherwise. -/
def isPrintableAscii (c : Char) : Bool :=
  32 ≤ c.toNat && c.toNat ≤ 126

/-- The pubkey length error message of `verifySignature`. -/
def pubkeyLenErrMsg (n : Nat) : String :=
  "pubkey must be 33 bytes (compressed secp256k1). Got " ++ toString n

/-- The signature length error message of `verifySignature`. -/
def sigLenErrMsg (n : Nat) : String :=
  "signature must be 64 bytes (r||s). Got " ++ toString n

/-- `verifySignature(bech32Address, signatureB64, pubkeyB64,
messageString)` from `server.mjs`.  The whole body is wrapped in a
try/catch returning `{ok:false, error}`, so every internal throw is
modelled as the corresponding error result, in source order: base64
validation of the signature then the pubkey, `toAscii` of the message,
the 33-byte pubkey check, the 64-byte signature check, and finally the
`verifyADR36Amino` capability, whose boolean outcome is the `adr36Ok`
argument. -/
def verifySignature (adr36Ok : Bool)
    (bech32Address signatureB64 pubkeyB64 messageString : String) : VerifyResult :=
  if assertBase64 signatureB64 = false then
    { ok := false, error := some "signatureB64 is not valid base64" }
  else if assertBase64 pubkeyB64 = false then
    { ok := false, error := some "pubkeyB64 is not valid base64" }
  else if messageString.toList.all isPrintableAscii = false then
    { ok := false, error := some "Cannot encode character that is out of printable ASCII range" }
  else if b64DecodedLen pubkeyB64 ≠ 33 then
    { ok := false, error := some (pubkeyLenErrMsg (b64DecodedLen pubkeyB64)) }
  else if b64DecodedLen signatureB64 ≠ 64 then
    { ok := false, error := some (sigLenErrMsg (b64DecodedLen signatureB64)) }
  else
    { ok := adr36Ok, error := none }

/-! ## Concrete inputs used by counterexamples and witnesses -/

/-- A shape-valid zkpass request with no client identifier. -/
def c1CexReq : ZkpassRequest :=
  ⟨some "p", some "q", none, some "s", none, some "twilight1w1"⟩

/-- A verified outcome with a server-derived identifier. -/
def c1CexOutcome : ZkpassOutcome := ⟨true, some "abc", none⟩

/-- A shape-valid zkpass request carrying a client identifier. -/
def c1WitReq : ZkpassRequest :=
  ⟨some "p", some "q", none, some "s", some "uid1", some "twilight1w1"⟩

/-- A verified outcome matching the client identifier of `c1WitReq`. -/
def c1WitOutcome : ZkpassOutcome := ⟨true, some "uid1", none⟩

/-- A shape-valid zkpass request with no client identifier. -/
def c2CexReq : ZkpassRequest :=
  ⟨some "pf", some "qr", none, some "sc", none, some "twilight1w2"⟩

/-- A verified outcome with a server-derived identifier. -/
def c2CexOutcome : ZkpassOutcome := ⟨true, some "xyz", none⟩

/-- A shape-valid zkpass request with a client identifier. -/
def c2WitReq : ZkpassRequest :=
  ⟨some "pf", some "qr", none, some "sc", some "u2", some "twilight1w2"⟩

/-- A verified outcome matching the client identifier of `c2WitReq`. -/
def c2WitOutcome : ZkpassOutcome := ⟨true, some "u2", none⟩

/-- A well-formed delegated-binding request. -/
def c2WitDreq : DelegatedRequest := ⟨some "twilight1aaa", some "uu2"⟩

/-- A selfcheck table containing an audited submission for `"uu2"`. -/
def c2WitDb : List SelfcheckRow := [⟨some "uu2", some "proofblob"⟩]

/-- A shape-valid provider A request. -/
def c2WitVreq : VerifyRequest := ⟨some "att2", some "prf2", some ["x"], some "ctx2"⟩

/-- A valid provider A outcome. -/
def c2WitVoutcome : SelfOutcome := ⟨true, 0, "USA", some "uid2", "abcd"⟩

/-- An environment whose hex decode yields a `twilight`-prefixed address
and whose writes succeed. -/
def c2WitEnv : SelfEnv := ⟨0, fun _ => "twilight1decoded", false, false⟩

/-- A shape-valid zkpass request. -/
def c3WitReq : ZkpassRequest := ⟨some "pf3", some "qr3", none, some "sc3", none, none⟩

/-- An unverified zkpass outcome. -/
def c3WitOutcome : ZkpassOutcome := ⟨false, none, none⟩

/-- A well-formed delegated-binding request for identifier `"u1"`. -/
def c4WitReq : DelegatedRequest := ⟨some "twilight1abc", some "u1"⟩

/-- A selfcheck table containing an audited submission for `"u1"`. -/
def c4WitDb : List SelfcheckRow := [⟨some "u1", some "pr"⟩]

/-- A provider A request missing `attestationId`. -/
def c5WitBadVreq : VerifyRequest := ⟨none, some "p", some ["x"], some "u"⟩

/-- A shape-valid provider A request. -/
def c5WitVreq : VerifyRequest := ⟨some "a5", some "p5", some ["x"], some "u5"⟩

/-- An invalid provider A outcome. -/
def c5WitVoutcome : SelfOutcome := ⟨false, 0, "FRA", some "uid5", ""⟩

/-- An arbitrary provider A environment. -/
def c5WitEnv : SelfEnv := ⟨0, fun _ => "", false, false⟩

/-- A zkpass request missing `proofs`. -/
def c5WitBadZreq : ZkpassRequest := ⟨none, some "q", none, some "s", none, none⟩

/-- A shape-valid zkpass request with matching identifiers. -/
def c5WitZreq : ZkpassRequest := ⟨some "p5", some "q5", none, some "s5", some "cu", none⟩

/-- An unverified zkpass outcome despite matching identifiers. -/
def c5WitZoutcome : ZkpassOutcome := ⟨false, some "cu", none⟩

/-- A delegated-binding request missing `cosmosAddress`. -/
def c5WitDreq : DelegatedRequest := ⟨none, some "u"⟩

/-- A shape-valid provider A request (empty `publicSignals` array). -/
def c6WitVreq : VerifyRequest := ⟨some "a6", some "p6", some [], some "u6"⟩

/-- A valid outcome failing both policy checks against `c6WitEnv`. -/
def c6WitOutcomeFail : SelfOutcome := ⟨true, 0, "FRA", some "uid6", "dd"⟩

/-- A valid outcome passing both policy checks against `c6WitEnv`. -/
def c6WitOutcomePass : SelfOutcome := ⟨true, 100, "USA", some "uid6", "dd"⟩

/-- An environment with `oneYearFromNow` between the two expiry values. -/
def c6WitEnv : SelfEnv := ⟨50, fun _ => "x", true, true⟩

/-- A shape-valid provider A request. -/
def c8WitVreq : VerifyRequest := ⟨some "a8", some "p8", some ["s"], some "u8"⟩

/-- A valid provider A outcome. -/
def c8WitOutcome : SelfOutcome := ⟨true, 0, "GBR", some "uid8", "beef"⟩

/-- A base64 string that decodes to 65 bytes (87 characters plus one
padding character). -/
def b64Sig65 : String := String.mk (List.replicate 87 'A' ++ ['='])

/-- A base64 string that decodes to 33 bytes (44 characters, no padding). -/
def b64Pub33 : String := String.mk (List.replicate 44 'A')

/-- A string that is not valid base64. -/
def b64Bad : String := "!!!"

/-- A provider A request with `publicSignals` present but the empty array
and all other fields non-empty. -/
def c10OkReq : VerifyRequest := ⟨some "att", some "proofdata", some [], some "ctx"⟩

/-- A provider A request whose `attestationId` is the empty string. -/
def c10BadAttReq : VerifyRequest := ⟨some "", some "proofdata", some ["sig1"], some "ctx"⟩

/-- A provider A request whose `proof` is the empty string. -/
def c10BadProofReq : VerifyRequest := ⟨some "att", some "", some ["sig1"], some "ctx"⟩

/-- A provider A request whose `userContextData` is the empty string. -/
def c10BadCtxReq : VerifyRequest := ⟨some "att", some "proofdata", some ["sig1"], some ""⟩

/-- The 400 missing-field result of the provider A orchestrator. -/
def verifyBadRequestResult : SelfResult :=
  { reply := .badRequest, verifierCalled := false, persistenceAttempted := false,
    loggedExpiryValid := none, loggedCountryAllowed := none,
    selfcheckWrites := [], zkpassWrites := [] }

/-- The 400 verifier-rejected result of the provider A orchestrator. -/
def verifyFailedResult : SelfResult :=
  { reply := .verifyFailed, verifierCalled := true, persistenceAttempted := false,
    loggedExpiryValid := none, loggedCountryAllowed := none,
    selfcheckWrites := [], zkpassWrites := [] }

/-! ## Theorems -/

/-- Claim C1, counterexample: on a shape-valid zkpass request with no
client identifier and a verified outcome carrying a server identifier, the
spec's reconciler rule allows persistence, but the code's gate
(`serverUID == clientUID && verified == true`) denies it and the handler
persists nothing. -/
theorem c1_counterexample :
    c1CexOutcome.verified = true ∧ c1CexReq.uniqueIdentifier = none ∧
      c1CexOutcome.uniqueIdentifier = some "abc" ∧
      specReconcilerAllow c1CexReq.uniqueIdentifier c1CexOutcome.uniqueIdentifier
        c1CexOutcome.verified = true ∧
      (zkpassHandler c1CexReq c1CexOutcome false).writes = [] := by
  decide

/-- Claim C1, amended: for every shape-valid zkpass request, a
VerificationRecord is persisted if and only if the verifier returned
`verified == true`, the server-derived identifier is loosely equal to the
client-supplied identifier (exact string equality when both are present;
when no client identifier is supplied, only when the server identifier is
also absent), and the storage write does not fail. -/
theorem c1_persistence_iff (req : ZkpassRequest) (outcome : ZkpassOutcome) (dbFails : Bool)
    (hv : zkpassValidationFails req = false) :
    (zkpassHandler req outcome dbFails).writes ≠ [] ↔
      outcome.verified = true ∧
        looseEq outcome.uniqueIdentifier req.uniqueIdentifier = true ∧ dbFails = false := by
  simp [zkpassHandler, hv, zkpassWritesFn, zkpassGate]
  cases h1 : looseEq outcome.uniqueIdentifier req.uniqueIdentifier <;>
    cases h2 : outcome.verified <;> cases dbFails <;> simp_all

/-- Witness for the amended claim C1 at a concrete matching request. -/
theorem c1_persistence_iff_witness :
    zkpassValidationFails c1WitReq = false ∧
      ((zkpassHandler c1WitReq c1WitOutcome false).writes ≠ [] ↔
        c1WitOutcome.verified = true ∧
          looseEq c1WitOutcome.uniqueIdentifier c1WitReq.uniqueIdentifier = true ∧
          false = false) :=
  ⟨by decide, c1_persistence_iff c1WitReq c1WitOutcome false (by decide)⟩

/-- Claim C2, counterexample: a verified zkpass outcome with no client
identifier passes the claim's identifier gate ("no client identifier
given"), yet zero VerificationRecord rows are written. -/
theorem c2_counterexample :
    c2CexOutcome.verified = true ∧ c2CexReq.uniqueIdentifier = none ∧
      c2CexOutcome.uniqueIdentifier = some "xyz" ∧
      specReconcilerAllow c2CexReq.uniqueIdentifier c2CexOutcome.uniqueIdentifier
        c2CexOutcome.verified = true ∧
      (zkpassHandler c2CexReq c2CexOutcome false).writes.length = 0 := by
  decide

/-- Claim C2, amended: when the verifier reports `verified == true`, the
client supplied an identifier equal to the server-derived one, and the
storage write succeeds, the part_003 zkpass flow writes exactly one
VerificationRecord with provider `"zkpass"`; the delegated flow with an
existing audited submission writes exactly one row with provider
`"self"`; and the main provider A flow on a valid outcome with successful
writes and a `"twilight"`-prefixed decoded address writes exactly one row
with provider `"self"`.  (With no client identifier and a present server
identifier, nothing is written — see the counterexample.) -/
theorem c2_single_write (req : ZkpassRequest) (outcome : ZkpassOutcome) (s : String)
    (dreq : DelegatedRequest) (db : List SelfcheckRow)
    (vreq : VerifyRequest) (voutcome : SelfOutcome) (env : SelfEnv) :
    (zkpassValidationFails req = false → outcome.verified = true →
      req.uniqueIdentifier = some s → outcome.uniqueIdentifier = some s →
      (zkpassHandler req outcome false).writes =
        [{ address := req.cosmosAddress, identifier := some s, provider := some "zkpass" }]) ∧
    (truthyStr dreq.cosmosAddress = true → truthyStr dreq.uuid = true →
      checkAttestationExists db dreq.uuid = true →
      (selfEndpointHandler dreq db false).2 =
        [{ address := dreq.cosmosAddress, identifier := dreq.uuid, provider := some "self" }]) ∧
    (verifyValidationFails vreq = false → voutcome.isValid = true →
      env.selfCheckFails = false → env.saveFails = false →
      startsWithTwilight (env.hexDecode voutcome.userDefinedData) = true →
      (verifyHandler vreq voutcome env).zkpassWrites =
        [{ address := some (env.hexDecode voutcome.userDefinedData),
           identifier := voutcome.userIdentifier, provider := some "self" }]) := by
  refine ⟨?_, ?_, ?_⟩
  · intro hv hver hc hs
    simp [zkpassHandler, hv, zkpassWritesFn, zkpassGate, hc, hs, hver, looseEq, jsOrStr,
      saveVerification]
  · intro h1 h2 h3
    simp [selfEndpointHandler, h1, h2, h3, saveVerification]
  · intro hv hi hscf hsf hpre
    simp [verifyHandler, hv, hi, verifyBestEffortWrites, hscf, hsf, hpre, saveVerification]

/-- Witness for the amended claim C2 at concrete inputs for all three
flows. -/
theorem c2_single_write_witness :
    (zkpassHandler c2WitReq c2WitOutcome false).writes =
      [{ address := c2WitReq.cosmosAddress, identifier := some "u2",
         provider := some "zkpass" }] ∧
    (selfEndpointHandler c2WitDreq c2WitDb false).2 =
      [{ address := c2WitDreq.cosmosAddress, identifier := c2WitDreq.uuid,
         provider := some "self" }] ∧
    (verifyHandler c2WitVreq c2WitVoutcome c2WitEnv).zkpassWrites =
      [{ address := some (c2WitEnv.hexDecode c2WitVoutcome.userDefinedData),
         identifier := c2WitVoutcome.userIdentifier, provider := some "self" }] :=
  ⟨(c2_single_write c2WitReq c2WitOutcome "u2" c2WitDreq c2WitDb c2WitVreq c2WitVoutcome
      c2WitEnv).1 (by decide) (by decide) (by decide) (by decide),
   (c2_single_write c2WitReq c2WitOutcome "u2" c2WitDreq c2WitDb c2WitVreq c2WitVoutcome
      c2WitEnv).2.1 (by decide) (by decide) (by decide),
   (c2_single_write c2WitReq c2WitOutcome "u2" c2WitDreq c2WitDb c2WitVreq c2WitVoutcome
      c2WitEnv).2.2 (by decide) (by decide) (by decide) (by decide) (by decide)⟩

/-- Claim C3: for every shape-valid zkpass request, the part_003 handler
replies with the envelope `{verified, clientUID, serverUID, match,
queryResultErrors, address}` regardless of persistence; the `server.mjs`
variant instead hits the undeclared identifier `address` while building
the response, so it replies HTTP 500 for every such request. -/
theorem c3_envelope_always (req : ZkpassRequest) (outcome : ZkpassOutcome) (dbFails : Bool)
    (hv : zkpassValidationFails req = false) :
    (zkpassHandler req outcome dbFails).reply = .envelope (zkpassEnvelopeOf req outcome) ∧
      (zkpassEnvelopeOf req outcome).verified = outcome.verified ∧
      (zkpassEnvelopeOf req outcome).clientUID = req.uniqueIdentifier ∧
      (zkpassEnvelopeOf req outcome).serverUID = outcome.uniqueIdentifier ∧
      (zkpassEnvelopeOf req outcome).queryResultErrors = outcome.queryResultErrors ∧
      (zkpassEnvelopeOf req outcome).address = req.cosmosAddress ∧
      (serverMjsZkpassHandler req outcome dbFails).reply = .internalError := by
  refine ⟨?_, rfl, rfl, rfl, rfl, rfl, ?_⟩
  · simp [zkpassHandler, hv]
  · simp [serverMjsZkpassHandler, hv]

/-- Witness for claim C3 at a concrete shape-valid request. -/
theorem c3_envelope_always_witness :
    (zkpassHandler c3WitReq c3WitOutcome false).reply =
      .envelope (zkpassEnvelopeOf c3WitReq c3WitOutcome) ∧
      (zkpassEnvelopeOf c3WitReq c3WitOutcome).verified = c3WitOutcome.verified ∧
      (zkpassEnvelopeOf c3WitReq c3WitOutcome).clientUID = c3WitReq.uniqueIdentifier ∧
      (zkpassEnvelopeOf c3WitReq c3WitOutcome).serverUID = c3WitOutcome.uniqueIdentifier ∧
      (zkpassEnvelopeOf c3WitReq c3WitOutcome).queryResultErrors =
        c3WitOutcome.queryResultErrors ∧
      (zkpassEnvelopeOf c3WitReq c3WitOutcome).address = c3WitReq.cosmosAddress ∧
      (serverMjsZkpassHandler c3WitReq c3WitOutcome false).reply = .internalError :=
  c3_envelope_always c3WitReq c3WitOutcome false (by decide)

/-- Claim C4: the part_003 delegated-binding handler returns 404 and
writes nothing when no audited submission exists for the identifier, and
on an existing submission returns success with exactly one
`(uuid, cosmosAddress, "self")` write; the `server.mjs` variant instead
raises a ReferenceError (undeclared `attestationId`) on the not-found
path and so replies HTTP 500 there. -/
theorem c4_delegated_binding (req : DelegatedRequest) (db : List SelfcheckRow)
    (h1 : truthyStr req.cosmosAddress = true) (h2 : truthyStr req.uuid = true) :
    (checkAttestationExists db req.uuid = false →
      selfEndpointHandler req db false = (.notFound, [])) ∧
    (checkAttestationExists db req.uuid = true →
      selfEndpointHandler req db false =
        (.success (saveVerification req.uuid req.cosmosAddress (some "self")),
         [saveVerification req.uuid req.cosmosAddress (some "self")])) ∧
    (checkAttestationExists db req.uuid = false →
      serverMjsSelfHandler req db false = (.internalError, [])) := by
  refine ⟨?_, ?_, ?_⟩ <;> intro h
  · simp [selfEndpointHandler, h1, h2, h]
  · simp [selfEndpointHandler, h1, h2, h, saveVerification]
  · simp [serverMjsSelfHandler, h1, h2, h]

/-- Witness for claim C4: identifier `"u1"` absent from an empty table
(404 path, plus the `server.mjs` 500), then present (success path). -/
theorem c4_delegated_binding_witness :
    (selfEndpointHandler c4WitReq [] false = (.notFound, []) ∧
      serverMjsSelfHandler c4WitReq [] false = (.internalError, [])) ∧
    selfEndpointHandler c4WitReq c4WitDb false =
      (.success (saveVerification c4WitReq.uuid c4WitReq.cosmosAddress (some "self")),
       [saveVerification c4WitReq.uuid c4WitReq.cosmosAddress (some "self")]) :=
  ⟨⟨(c4_delegated_binding c4WitReq [] (by decide) (by decide)).1 (by decide),
    (c4_delegated_binding c4WitReq [] (by decide) (by decide)).2.2 (by decide)⟩,
   (c4_delegated_binding c4WitReq c4WitDb (by decide) (by decide)).2.1 (by decide)⟩

/-- Claim C5: a request missing a required field yields a 400 validation
failure with zero writes (provider A, zkpass and delegated flows), and an
unverified outcome yields zero VerificationRecord writes — provider A
responds the 400 failure envelope and the zkpass flow still echoes its
envelope with status `"error"`. -/
theorem c5_no_writes_on_failure (req : VerifyRequest) (outcome : SelfOutcome) (env : SelfEnv)
    (zreq : ZkpassRequest) (zoutcome : ZkpassOutcome) (dbFails : Bool)
    (dreq : DelegatedRequest) (db : List SelfcheckRow) :
    (verifyValidationFails req = true →
      verifyHandler req outcome env = verifyBadRequestResult) ∧
    (verifyValidationFails req = false → outcome.isValid = false →
      verifyHandler req outcome env = verifyFailedResult) ∧
    (zkpassValidationFails zreq = true →
      zkpassHandler zreq zoutcome dbFails = { reply := .badRequest, writes := [] }) ∧
    (zoutcome.verified = false →
      (zkpassHandler zreq zoutcome dbFails).writes = [] ∧
        (zkpassValidationFails zreq = false →
          (zkpassHandler zreq zoutcome dbFails).reply =
            .envelope (zkpassEnvelopeOf zreq zoutcome) ∧
          (zkpassEnvelopeOf zreq zoutcome).status = "error")) ∧
    ((truthyStr dreq.cosmosAddress = false ∨ truthyStr dreq.uuid = false) →
      selfEndpointHandler dreq db dbFails = (.badRequest, [])) := by
  refine ⟨?_, ?_, ?_, ?_, ?_⟩
  · intro h
    simp [verifyHandler, h, verifyBadRequestResult]
  · intro h1 h2
    simp [verifyHandler, h1, h2, verifyFailedResult]
  · intro h
    simp [zkpassHandler, h]
  · intro h
    refine ⟨?_, ?_⟩
    · cases hv : zkpassValidationFails zreq <;>
        simp [zkpassHandler, hv, zkpassWritesFn, zkpassGate, h]
    · intro hv
      exact ⟨by simp [zkpassHandler, hv], by simp [zkpassEnvelopeOf, h]⟩
  · intro h
    rcases h with h | h <;> simp [selfEndpointHandler, h]

/-- Witness for claim C5 at concrete inputs for each branch. -/
theorem c5_no_writes_on_failure_witness :
    verifyHandler c5WitBadVreq c5WitVoutcome c5WitEnv = verifyBadRequestResult ∧
    verifyHandler c5WitVreq c5WitVoutcome c5WitEnv = verifyFailedResult ∧
    zkpassHandler c5WitBadZreq c5WitZoutcome false = { reply := .badRequest, writes := [] } ∧
    (zkpassHandler c5WitZreq c5WitZoutcome false).writes = [] ∧
    selfEndpointHandler c5WitDreq [] false = (.badRequest, []) :=
  ⟨(c5_no_writes_on_failure c5WitBadVreq c5WitVoutcome c5WitEnv c5WitBadZreq c5WitZoutcome
      false c5WitDreq []).1 (by decide),
   (c5_no_writes_on_failure c5WitVreq c5WitVoutcome c5WitEnv c5WitBadZreq c5WitZoutcome
      false c5WitDreq []).2.1 (by decide) (by decide),
   (c5_no_writes_on_failure c5WitVreq c5WitVoutcome c5WitEnv c5WitBadZreq c5WitZoutcome
      false c5WitDreq []).2.2.1 (by decide),
   ((c5_no_writes_on_failure c5WitVreq c5WitVoutcome c5WitEnv c5WitZreq c5WitZoutcome
      false c5WitDreq []).2.2.2.1 (by decide)).1,
   (c5_no_writes_on_failure c5WitVreq c5WitVoutcome c5WitEnv c5WitZreq c5WitZoutcome
      false c5WitDreq []).2.2.2.2 (Or.inl (by decide))⟩

/-- Claim C6: on a valid provider A outcome the handler responds success
and enters the persistence block for every value of the two policy
checks; the checks are merely computed and logged. -/
theorem c6_policy_advisory (req : VerifyRequest) (outcome : SelfOutcome) (env : SelfEnv)
    (hv : verifyValidationFails req = false) (hi : outcome.isValid = true) :
    (verifyHandler req outcome env).reply = .success ∧
      (verifyHandler req outcome env).persistenceAttempted = true ∧
      (verifyHandler req outcome env).loggedExpiryValid =
        some (expiryOk outcome.expiryDateMs env.oneYearFromNowMs) ∧
      (verifyHandler req outcome env).loggedCountryAllowed =
        some (countryOk outcome.issuingState allowedCountries) := by
  simp [verifyHandler, hv, hi]

/-- Witness for claim C6: the response and persistence attempt are the
same whether both policy checks fail or both pass. -/
theorem c6_policy_advisory_witness :
    ((verifyHandler c6WitVreq c6WitOutcomeFail c6WitEnv).reply = .success ∧
      (verifyHandler c6WitVreq c6WitOutcomeFail c6WitEnv).persistenceAttempted = true ∧
      (verifyHandler c6WitVreq c6WitOutcomeFail c6WitEnv).loggedExpiryValid =
        some (expiryOk c6WitOutcomeFail.expiryDateMs c6WitEnv.oneYearFromNowMs) ∧
      (verifyHandler c6WitVreq c6WitOutcomeFail c6WitEnv).loggedCountryAllowed =
        some (countryOk c6WitOutcomeFail.issuingState allowedCountries)) ∧
    ((verifyHandler c6WitVreq c6WitOutcomePass c6WitEnv).reply = .success ∧
      (verifyHandler c6WitVreq c6WitOutcomePass c6WitEnv).persistenceAttempted = true ∧
      (verifyHandler c6WitVreq c6WitOutcomePass c6WitEnv).loggedExpiryValid =
        some (expiryOk c6WitOutcomePass.expiryDateMs c6WitEnv.oneYearFromNowMs) ∧
      (verifyHandler c6WitVreq c6WitOutcomePass c6WitEnv).loggedCountryAllowed =
        some (countryOk c6WitOutcomePass.issuingState allowedCountries)) :=
  ⟨c6_policy_advisory c6WitVreq c6WitOutcomeFail c6WitEnv (by decide) (by decide),
   c6_policy_advisory c6WitVreq c6WitOutcomePass c6WitEnv (by decide) (by decide)⟩

/-- Claim C7: given that `oneYearFromNow` is the wall clock plus one
calendar year (between 365 and 366 days ahead), the expiry predicate
holds at `now + 400 days`, fails at `now + 30 days`, and in general holds
exactly when the expiry is strictly later than `oneYearFromNow`; the
country predicate holds exactly for members of the allow-list. -/
theorem c7_policy_predicates (now oneYearFromNow x : Int) (c : String) (l : List String)
    (h1 : now + 365 * msPerDay ≤ oneYearFromNow)
    (h2 : oneYearFromNow ≤ now + 366 * msPerDay) :
    expiryOk (now + 400 * msPerDay) oneYearFromNow = true ∧
      expiryOk (now + 30 * msPerDay) oneYearFromNow = false ∧
      (expiryOk x oneYearFromNow = true ↔ oneYearFromNow < x) ∧
      (countryOk c l = true ↔ c ∈ l) := by
  refine ⟨?_, ?_, ?_, ?_⟩
  · simp only [expiryOk, decide_eq_true_eq]
    simp only [msPerDay] at h1 h2 ⊢
    omega
  · simp only [expiryOk, decide_eq_false_iff_not, not_lt]
    simp only [msPerDay] at h1 h2 ⊢
    omega
  · simp [expiryOk]
  · simp [countryOk]

/-- Witness for claim C7 at `now = 0` with a 365-day year. -/
theorem c7_policy_predicates_witness :
    expiryOk (0 + 400 * msPerDay) (365 * msPerDay) = true ∧
      expiryOk (0 + 30 * msPerDay) (365 * msPerDay) = false ∧
      (expiryOk (500 * msPerDay) (365 * msPerDay) = true ↔ 365 * msPerDay < 500 * msPerDay) ∧
      (countryOk "USA" allowedCountries = true ↔ "USA" ∈ allowedCountries) :=
  c7_policy_predicates 0 (365 * msPerDay) (500 * msPerDay) "USA" allowedCountries
    (by decide) (by decide)

/-- Claim C8: on a valid provider A outcome the handler responds success
for every combination of best-effort failures — audit write failure,
VerificationRecord write failure, or a decoded wallet address without the
`"twilight"` prefix. -/
theorem c8_best_effort (req : VerifyRequest) (outcome : SelfOutcome)
    (oneYearFromNowMs : Int) (hexDecode : String → String) (scf sf : Bool)
    (hv : verifyValidationFails req = false) (hi : outcome.isValid = true) :
    (verifyHandler req outcome ⟨oneYearFromNowMs, hexDecode, scf, sf⟩).reply = .success := by
  simp [verifyHandler, hv, hi]

/-- Witness for claim C8: success is still returned when the audit write
fails, and when the decoded address lacks the prefix while the record
write fails. -/
theorem c8_best_effort_witness :
    (verifyHandler c8WitVreq c8WitOutcome ⟨0, fun _ => "cosmos1bad", true, true⟩).reply =
      .success ∧
    (verifyHandler c8WitVreq c8WitOutcome ⟨0, fun _ => "nottwilight", false, true⟩).reply =
      .success :=
  ⟨c8_best_effort c8WitVreq c8WitOutcome 0 (fun _ => "cosmos1bad") true true
      (by decide) (by decide),
   c8_best_effort c8WitVreq c8WitOutcome 0 (fun _ => "nottwilight") false true
      (by decide) (by decide)⟩

/-- Claim C9: `verifySignature` always returns an `{ok, error?}` value;
malformed base64 in the signature or pubkey yields `ok:false` with an
error message, a pubkey not decoding to 33 bytes yields the pubkey length
error, a signature decoding to 65 bytes yields the 64-byte length-mismatch
message, and `ok:true` can only come from the ADR-036 curve verification
itself. -/
theorem c9_verify_signature (adr36Ok : Bool) (a s p m : String) :
    (assertBase64 s = false →
      verifySignature adr36Ok a s p m =
        { ok := false, error := some "signatureB64 is not valid base64" }) ∧
    (assertBase64 s = true → assertBase64 p = false →
      verifySignature adr36Ok a s p m =
        { ok := false, error := some "pubkeyB64 is not valid base64" }) ∧
    (assertBase64 s = true → assertBase64 p = true →
      m.toList.all isPrintableAscii = true → b64DecodedLen p ≠ 33 →
      verifySignature adr36Ok a s p m =
        { ok := false, error := some (pubkeyLenErrMsg (b64DecodedLen p)) }) ∧
    (assertBase64 s = true → assertBase64 p = true →
      m.toList.all isPrintableAscii = true → b64DecodedLen p = 33 → b64DecodedLen s = 65 →
      verifySignature adr36Ok a s p m =
        { ok := false, error := some (sigLenErrMsg 65) }) ∧
    sigLenErrMsg 65 = "signature must be 64 bytes (r||s). Got 65" ∧
    ((verifySignature adr36Ok a s p m).ok = true →
      (verifySignature adr36Ok a s p m).error = none ∧ adr36Ok = true) := by
  refine ⟨?_, ?_, ?_, ?_, rfl, ?_⟩
  · intro h
    simp [verifySignature, h]
  · intro h1 h2
    simp [verifySignature, h1, h2]
  · intro h1 h2 h3 h4
    simp only [verifySignature, h1, h2, h3]
    simp [h4]
  · intro h1 h2 h3 h4 h5
    simp only [verifySignature, h1, h2, h3, h4, h5]
    simp
  · intro h
    simp only [verifySignature] at h ⊢
    split_ifs at h ⊢ <;> simp_all

/-- Witness for claim C9: a malformed signature, a 3-byte pubkey, and a
65-byte signature each fail closed with the expected message. -/
theorem c9_verify_signature_witness :
    verifySignature true "twilight1q" b64Bad b64Pub33 "msg" =
      { ok := false, error := some "signatureB64 is not valid base64" } ∧
    verifySignature true "twilight1q" b64Pub33 "AAAA" "msg" =
      { ok := false, error := some (pubkeyLenErrMsg 3) } ∧
    verifySignature true "twilight1q" b64Sig65 b64Pub33 "msg" =
      { ok := false, error := some (sigLenErrMsg 65) } :=
  ⟨(c9_verify_signature true "twilight1q" b64Bad b64Pub33 "msg").1 (by decide),
   (c9_verify_signature true "twilight1q" b64Pub33 "AAAA" "msg").2.2.1
      (by decide) (by decide) (by decide) (by decide),
   (c9_verify_signature true "twilight1q" b64Sig65 b64Pub33 "msg").2.2.2.1
      (by decide) (by decide) (by decide) (by decide) (by decide)⟩

/-- Claim C10: `/api/verify` request validation is truthiness-based — a
present-but-empty `publicSignals` array passes validation and the
verifier is invoked, while an empty-string `attestationId`, `proof` or
`userContextData` is rejected with a 400 before any verifier call or
write. -/
theorem c10_truthiness_validation (outcome : SelfOutcome) (env : SelfEnv) :
    (verifyHandler c10OkReq outcome env).verifierCalled = true ∧
      verifyHandler c10BadAttReq outcome env = verifyBadRequestResult ∧
      verifyHandler c10BadProofReq outcome env = verifyBadRequestResult ∧
      verifyHandler c10BadCtxReq outcome env = verifyBadRequestResult := by
  refine ⟨?_, ?_, ?_, ?_⟩
  · have hv : verifyValidationFails c10OkReq = false := by decide
    cases hi : outcome.isValid <;> simp [verifyHandler, hv, hi]
  · have hv : verifyValidationFails c10BadAttReq = true := by decide
    simp [verifyHandler, hv, verifyBadRequestResult]
  · have hv : verifyValidationFails c10BadProofReq = true := by decide
    simp [verifyHandler, hv, verifyBadRequestResult]
  · have hv : verifyValidationFails c10BadCtxReq = true := by decide
    simp [verifyHandler, hv, verifyBadRequestResult]

end Twilight
